import Mathlib

set_option maxRecDepth 8000

/-!
Shallow embedding of `inform-compile.py` (the whole repository is this one
script).  Pure string and list functions mirror the Python operations the
script performs; the filesystem and the current date (`time.strftime`) are
passed in explicitly.  All character-class operations (`\w`, `\d`,
whitespace, lower-casing) are modelled at ASCII level, which covers every
string the script itself builds and compares.
-/

/-- ASCII word character, modelling the regex class `\w` used by the header
pattern `^! \w+:` in `getmetadata` (line 78). -/
def isWordChar (c : Char) : Bool :=
  (decide ('a' ≤ c) && decide (c ≤ 'z')) || (decide ('A' ≤ c) && decide (c ≤ 'Z')) ||
    (decide ('0' ≤ c) && decide (c ≤ '9')) || c == '_'

/-- ASCII whitespace, modelling what Python's `str.strip()` removes from the
metadata values (line 91). -/
def isWsChar (c : Char) : Bool :=
  c == ' ' || c == '\t' || c == '\n' || c == '\r'

/-- ASCII digit, modelling the regex class `\d` (lines 81-83). -/
def isDigitChar (c : Char) : Bool :=
  decide ('0' ≤ c) && decide (c ≤ '9')

/-- ASCII lower-casing of one character, modelling Python `str.lower()`
(lines 90, 212, 214). -/
def lowerChar (c : Char) : Char :=
  if decide ('A' ≤ c) && decide (c ≤ 'Z') then Char.ofNat (c.toNat + 32) else c

/-- Python `str.lower()` at ASCII level. -/
def lowerStr (s : String) : String := String.mk (s.data.map lowerChar)

/-- Python `str.strip()`: drop whitespace from both ends (line 91). -/
def trimList (l : List Char) : List Char :=
  ((l.dropWhile isWsChar).reverse.dropWhile isWsChar).reverse

/-- Python `str.strip()` on strings. -/
def trimStr (s : String) : String := String.mk (trimList s.data)

/-- Python `str.split(sep)` for a one-character separator: split at every
occurrence of `sep`, keeping empty pieces (used for `line.split(':')` at
line 89 and `fieldname.split(' ')` at line 90).  The result is always
non-empty; the `headD`/`tail` combination rebuilds the first piece. -/
def splitOnChar (sep : Char) : List Char → List (List Char)
  | [] => [[]]
  | c :: cs =>
    if c == sep then [] :: splitOnChar sep cs
    else (c :: (splitOnChar sep cs).headD []) :: (splitOnChar sep cs).tail

/-- Longest leading run of ASCII digits, modelling the greedy `\d+`. -/
def takeDigits : List Char → List Char
  | [] => []
  | c :: cs => if isDigitChar c then c :: takeDigits cs else []

/-- After the first word character, the regex `^! \w+:` accepts further word
characters until a colon appears immediately after the run. -/
def wordRunColonAux : List Char → Bool
  | [] => false
  | c :: cs => if c == ':' then true else isWordChar c && wordRunColonAux cs

/-- Does `re.findall('^! \\w+:', line)` find a match (line 88)?  The line
must start with `"! "`, then at least one word character, then `':'`. -/
def matchesCommentKey (line : String) : Bool :=
  match line.data with
  | c0 :: c1 :: c :: cs => c0 == '!' && c1 == ' ' && isWordChar c && wordRunColonAux cs
  | _ => false

/-- The double-quote character (written via its code so that no quote
appears inside a character literal). -/
def dquote : Char := Char.ofNat 34

/-- Double quote as a one-character string. -/
def dqs : String := String.singleton dquote

/-- The single-quote (apostrophe) character. -/
def squote : Char := Char.ofNat 39

/-- Single quote as a one-character string. -/
def sqs : String := String.singleton squote

/-- Model of `re.findall('^Release \\d+', line)` followed by
`match.split()[1]` (lines 93-95): the digit run after `"Release "`,
or `none` when the pattern does not match. -/
def releaseMatch (line : String) : Option String :=
  match line.data with
  | 'R' :: 'e' :: 'l' :: 'e' :: 'a' :: 's' :: 'e' :: ' ' :: rest =>
    match takeDigits rest with
    | [] => none
    | ds => some (String.mk ds)
  | _ => none

/-- Model of `re.findall('^Serial "\\d+"', line)` followed by
`match.split()[1][1:-1]` (lines 97-99): the digit run between the quotes
after `"Serial "`, requiring the closing quote right after the digits. -/
def serialMatch (line : String) : Option String :=
  match line.data with
  | 'S' :: 'e' :: 'r' :: 'i' :: 'a' :: 'l' :: ' ' :: c :: rest =>
    if c == dquote then
      match takeDigits rest with
      | [] => none
      | ds => if (rest.getD ds.length ' ') == dquote then some (String.mk ds) else none
    else none
  | _ => none

/-- The exception raised by `fieldname, value = line.split(':')` (line 89)
when the split produces more than two pieces. -/
def valueErrorMsg : String := "ValueError: too many values to unpack"

/-- The header scan of `getmetadata` (lines 87-102), one line at a time.
Lines are modelled without their trailing newline, so the blank-line test
`line == '\n'` becomes `line == ""`.  The metadata dictionary is modelled
as an association list with the most recent binding first (Python dict
assignment overwrites, and `lookupMeta` takes the first hit).  A comment
line whose value contains a further colon makes `line.split(':')` yield
more than two pieces, so the tuple unpacking at line 89 raises `ValueError`
(modelled as `Except.error`).  `fieldname.split(' ')[1:][0]` is index 1 of
the space-split of the part before the colon, which under the matched
pattern is exactly the key. -/
def getmetadataGo : List (String × String) → List String → List String →
    Except String (List (String × String) × List String)
  | md, ks, [] => Except.ok (md, ks)
  | md, ks, line :: rest =>
    if matchesCommentKey line then
      let parts := splitOnChar ':' line.data
      if parts.length == 2 then
        let fieldname := lowerStr (String.mk ((splitOnChar ' ' (parts.getD 0 [])).getD 1 []))
        let value := trimStr (String.mk (parts.getD 1 []))
        getmetadataGo ((fieldname, value) :: md) (ks ++ [fieldname]) rest
      else Except.error valueErrorMsg
    else
      match releaseMatch line with
      | some r => getmetadataGo (("release", r) :: md) (ks ++ ["release"]) rest
      | none =>
        match serialMatch line with
        | some sn => getmetadataGo (("serial", sn) :: md) (ks ++ ["serial"]) rest
        | none => if line == "" then Except.ok (md, ks) else getmetadataGo md ks rest

/-- `getmetadata` applied to the lines of an already-opened file
(lines 75-104; the encoding detection via chardet is abstracted away and
the file's decoded lines are supplied directly). -/
def getmetadataLines (ls : List String) :
    Except String (List (String × String) × List String) :=
  getmetadataGo [] [] ls

/-- Dictionary lookup in the metadata mapping (`metadata['release']`,
`'release' in metadata.keys()` etc.). -/
def lookupMeta (md : List (String × String)) (k : String) : Option String :=
  match md.find? (fun p => p.1 == k) with
  | some p => some p.2
  | none => none

/-- Index of the last occurrence of `target`, modelling `str.rfind`. -/
def lastIdxOf (target : Char) : List Char → Option Nat
  | [] => none
  | c :: cs =>
    match lastIdxOf target cs with
    | some i => some (i + 1)
    | none => if c == target then some 0 else none

/-- Drop trailing slashes, modelling `head.rstrip('/')` in
`posixpath.split`. -/
def stripTrailingSlashes (l : List Char) : List Char :=
  (l.reverse.dropWhile (fun c => c == '/')).reverse

/-- `os.path.split` for POSIX paths (line 137): split after the last
slash; the head keeps no trailing slash unless it is all slashes. -/
def pySplit (p : String) : String × String :=
  match lastIdxOf '/' p.data with
  | none => ("", p)
  | some i =>
    let headL := p.data.take (i + 1)
    let tailL := p.data.drop (i + 1)
    let headS := if headL.all (fun c => c == '/') then String.mk headL
                 else String.mk (stripTrailingSlashes headL)
    (headS, String.mk tailL)

/-- `os.path.splitext` (line 138), applied by the script to a basename
that contains no slash: split at the last dot, unless every character
before that dot is itself a dot (so `".inf"` has no extension). -/
def pySplitext (p : String) : String × String :=
  match lastIdxOf '.' p.data with
  | none => (p, "")
  | some d =>
    if (p.data.take d).any (fun c => !(c == '.')) then
      (String.mk (p.data.take d), String.mk (p.data.drop d))
    else (p, "")

/-- The docopt argument dictionary, restricted to the entries the script
reads.  Options docopt reports as `None` and options given as the empty
string are both "falsy" for the script's `if not args[...]` tests, so both
are modelled as `""`. -/
structure Args where
  informbin : String
  tmpdir : String
  devstage : String
  dev : Bool
  language : String
  librarypaths : String
  unicodeFlag : Bool
  outdirectory : String
  storyfilePref : String
  storyfilesuffix : String
  nostorysuffix : Bool
  storyfileversion : String
  writejs : Bool
  force : Bool
  verbosity : Nat
  deriving DecidableEq, Repr

/-- The mutable state threaded through the per-file loop: the `command`
list created once at line 129 (and only ever appended to), and the `args`
dictionary, whose entries are mutated inside the loop (lines 144-177 and
211-212) and keep their values for the next file. -/
structure PState where
  command : List String
  args : Args
  deriving DecidableEq, Repr

/-- Abstraction of the filesystem queries the script makes
(`os.path.exists`, `os.path.isdir`, `os.path.isfile`) plus the decoded
header lines of a readable file. -/
structure FS where
  pathExists : String → Bool
  isdir : String → Bool
  isfile : String → Bool
  lines : String → List String

/-- What one iteration of the per-file loop (lines 135-231) observably
does.  `fatalOpen` is the uncaught `FileNotFoundError` from `getmetadata`'s
`open` when the input does not exist (line 84, reached from line 142 before
any existence check); `fatalMeta` is the uncaught `ValueError` from line
89; `fatalOutdir` is the `sys.exit(1)` at line 153; the three skips are the
`continue`s at lines 185, 189 and 193, carrying the story-file name that
was derived; `fatalNameError` is the crash at line 223, where the undefined
name `tmpdir` is appended: it carries the command list as built so far
(lines 197-221) and the derived story-file name.  Because of this crash no
iteration ever reaches the `subprocess.call` at line 228.  An uncaught
exception terminates the Python process with exit status 1, exactly like
`sys.exit(1)`. -/
inductive StepOutcome where
  | fatalOpen : StepOutcome
  | fatalMeta : String → StepOutcome
  | fatalOutdir : String → StepOutcome
  | skipNotFound : String → StepOutcome
  | skipExtension : String → StepOutcome
  | skipExists : String → StepOutcome
  | fatalNameError : List String → String → StepOutcome
  deriving DecidableEq, Repr

/-- Does the outcome terminate the whole run (with exit status 1)? -/
def outcomeFatal : StepOutcome → Bool
  | StepOutcome.fatalOpen => true
  | StepOutcome.fatalMeta _ => true
  | StepOutcome.fatalOutdir _ => true
  | StepOutcome.fatalNameError _ _ => true
  | StepOutcome.skipNotFound _ => false
  | StepOutcome.skipExtension _ => false
  | StepOutcome.skipExists _ => false

/-- The output directory after lines 137-148: the `--outdirectory` entry
currently stored in `args` or, when that entry is falsy, the input file's
directory name (with `''` replaced by `'./'` at lines 139-140). -/
def resolvedOutdir (st : PState) (infile : String) : String :=
  let dn0 := (pySplit infile).1
  let dn := if dn0 == "" then "./" else dn0
  if st.args.outdirectory == "" then dn else st.args.outdirectory

/-- Lines 161-174: when the stored `--storyfilesuffix` is falsy, build
`'_' + release + '_' + serial` with release defaulting to `"1"` and serial
defaulting to the current `yymmdd` date; otherwise keep the stored
suffix. -/
def suffixDefault (stored : String) (metadata : List (String × String)) (today : String) :
    String :=
  if stored == "" then
    "_" ++ (match lookupMeta metadata ("release") with | some r => r | none => "1")
      ++ "_" ++ (match lookupMeta metadata ("serial") with | some sn => sn | none => today)
  else stored

/-- Lines 161-177 combined: the suffix actually stored and used for the
story-file name, including the `--nostorysuffix` override at lines
176-177. -/
def finalSuffix (a : Args) (metadata : List (String × String)) (today : String) : String :=
  if a.nostorysuffix then "" else suffixDefault a.storyfilesuffix metadata today

/-- Lines 197-221: the appends to the shared `command` list before the
crash at line 223, and the `args['--language']` update from the `sprog`
metadata field (lines 211-212). -/
def buildCommandStep (st : PState) (infiledirname : String)
    (metadata : List (String × String)) (a5 : Args) : List String × Args :=
  let cmd1 := if a5.unicodeFlag then st.command ++ ["-Cu"] else st.command
  let cmd2 := if a5.devstage == "release" then cmd1 ++ ["-~S"]
              else if a5.devstage == "development" then cmd1 ++ ["-SDX"] else cmd1
  let cmd3 := if a5.verbosity ≥ 1 then cmd2 ++ ["-s"] else cmd2
  let a6 := match lookupMeta metadata ("sprog") with
            | some s => { a5 with language := lowerStr s }
            | none => a5
  let cmd4 := if lowerStr a6.language == "danish" || lowerStr a6.language == "dansk"
              then cmd3 ++ ["+language_name=Danish"] else cmd3
  let cmd5 := if a6.librarypaths == "" then cmd4
              else cmd4 ++ ["+" ++ a6.librarypaths ++ "," ++ infiledirname]
  (cmd5, a6)

/-- Lines 179-231 after the suffix has been resolved: derive the
story-file name (lines 179-181), run the three skip checks (lines
183-193), then build the command (lines 197-221) and hit the `NameError`
at line 223 (`command.append(tmpdir)` with `tmpdir` never defined). -/
def processChecksAndCommand (fs : FS) (st : PState)
    (infile infiledirname infilebasename infileextension : String)
    (metadata : List (String × String)) (a5 : Args) : PState × StepOutcome :=
  let storyfilename := a5.outdirectory ++ a5.storyfilePref ++ infilebasename
                         ++ a5.storyfilesuffix ++ ".z" ++ a5.storyfileversion
  if !(fs.isfile infile) then ({ st with args := a5 }, StepOutcome.skipNotFound storyfilename)
  else if !(infileextension == ".inf") then
    ({ st with args := a5 }, StepOutcome.skipExtension storyfilename)
  else if fs.isfile storyfilename && !a5.force then
    ({ st with args := a5 }, StepOutcome.skipExists storyfilename)
  else
    let ca := buildCommandStep st infiledirname metadata a5
    ({ command := ca.1, args := ca.2 }, StepOutcome.fatalNameError ca.1 storyfilename)

/-- Lines 137-231 once the metadata has been extracted: resolve the output
directory (lines 144-156, with the `sys.exit(1)` at line 153 when it is
not a directory), default the prefix (lines 158-159, a no-op in this
model since the falsy prefix is already `""`), resolve the suffix (lines
161-177), and continue with the checks and command construction. -/
def processResolved (fs : FS) (today : String) (st : PState) (infile : String)
    (metadata : List (String × String)) : PState × StepOutcome :=
  let pr := pySplit infile
  let infiledirname := if pr.1 == "" then "./" else pr.1
  let pe := pySplitext pr.2
  if fs.isdir (resolvedOutdir st infile) then
    let a1 := { st.args with outdirectory := resolvedOutdir st infile }
    let a2 := if (a1.outdirectory.data.getLastD ' ') == '/' then a1
              else { a1 with outdirectory := a1.outdirectory ++ "/" }
    let a5 := { a2 with storyfilesuffix := finalSuffix a2 metadata today }
    processChecksAndCommand fs st infile infiledirname pe.1 pe.2 metadata a5
  else
    ({ st with args := { st.args with outdirectory := resolvedOutdir st infile } },
      StepOutcome.fatalOutdir (resolvedOutdir st infile))

/-- One iteration of the per-file loop (lines 135-231).  `getmetadata` is
called at line 142, before any existence or extension check, so a missing
input raises `FileNotFoundError` at `open` (line 84) and a malformed
header raises `ValueError` (line 89); both abort the whole run. -/
def processFile (fs : FS) (today : String) (st : PState) (infile : String) :
    PState × StepOutcome :=
  if fs.pathExists infile then
    match getmetadataLines (fs.lines infile) with
    | Except.error e => (st, StepOutcome.fatalMeta e)
    | Except.ok mdks => processResolved fs today st infile mdks.1
  else (st, StepOutcome.fatalOpen)

/-- The per-file loop over the batch, returning the process exit status:
`0` when every file was handled without a fatal outcome, `1` as soon as
one iteration is fatal (both `sys.exit(1)` and an uncaught exception end
the Python process with status 1). -/
def runFiles (fs : FS) (today : String) : PState → List String → Nat
  | _, [] => 0
  | st, f :: rest =>
    if outcomeFatal (processFile fs today st f).2 then 1
    else runFiles fs today (processFile fs today st f).1 rest

/-- Lines 119-120: `--dev` forces `--devstage=development` before the
loop. -/
def applyDevFlag (a : Args) : Args :=
  if a.dev then { a with devstage := "development" } else a

/-- The state at loop entry: `command = [args['--informbin']]`
(line 129) and the dev-adjusted argument dictionary. -/
def initState (a : Args) : PState :=
  { command := [(applyDevFlag a).informbin], args := applyDevFlag a }

/-- The whole `__main__` block as an exit status: the compiler-binary and
temporary-directory existence checks (lines 125-133) followed by the
per-file loop. -/
def mainRun (fs : FS) (today : String) (a : Args) (infiles : List String) : Nat :=
  if fs.pathExists a.informbin then
    if fs.pathExists a.tmpdir then runFiles fs today (initState a) infiles else 1
  else 1

/-- The loop state after a prefix of the batch, threading each iteration's
mutations (used to speak about the state under which a later file is
processed). -/
def stateAfter (fs : FS) (today : String) : PState → List String → PState
  | st, [] => st
  | st, f :: rest => stateAfter fs today (processFile fs today st f).1 rest

/-- Observable actions of the post-compilation block, lines 236-245. -/
inductive PostEvent where
  | computeMd5 : PostEvent
  | computeSize : PostEvent
  | checkExists : PostEvent
  deriving DecidableEq, Repr

/-- Lines 233-245 as written (reachable only if line 223 had defined
`tmpdir`; with the current code every iteration crashes before the
`subprocess.call`, so this block is dead code — it is modelled here
because claims C9 speaks about it).  On a non-zero return code the run
exits at line 235 before touching the output file.  On return code zero
the script calls `md5(storyfilename)` at line 239 FIRST: when the output
file does not exist this `open` raises an uncaught `FileNotFoundError`
(exit status 1) and nothing else runs.  Only after the digest and the
size (line 241) does line 243 test `os.path.isfile(storyfilename)`; with a
stable filesystem that test can no longer fail, but it is kept here as
the third branch for fidelity. -/
def postprocess (returncode : Int) (outputExists : Bool) : List PostEvent × Nat :=
  if returncode == 0 then
    if !outputExists then ([PostEvent.computeMd5], 1)
    else
      if !outputExists then
        ([PostEvent.computeMd5, PostEvent.computeSize, PostEvent.checkExists], 1)
      else ([PostEvent.computeMd5, PostEvent.computeSize, PostEvent.checkExists], 0)
  else ([], 1)

/-- The standard Base64 alphabet. -/
def base64Alphabet : String :=
  "ABCDEFGHIJKLMNOPQRSTUVWXYZabcdefghijklmnopqrstuvwxyz0123456789+/"

/-- The Base64 character for a 6-bit value. -/
def b64Char (n : Nat) : Char := base64Alphabet.data.getD n 'A'

/-- Standard Base64 with `=` padding of a byte sequence (each entry a
byte value below 256), modelling `base64.b64encode` (line 254). -/
def base64Encode : List Nat → String
  | [] => ""
  | [a] => String.mk [b64Char (a / 4), b64Char ((a % 4) * 16), '=', '=']
  | [a, b] => String.mk [b64Char (a / 4), b64Char ((a % 4) * 16 + b / 16),
                         b64Char ((b % 16) * 4), '=']
  | a :: b :: c :: rest =>
    String.mk [b64Char (a / 4), b64Char ((a % 4) * 16 + b / 16),
               b64Char ((b % 16) * 4 + c / 64), b64Char (c % 64)] ++ base64Encode rest

/-- Python 3 `str` formatting of a `bytes` object via `'%s' % b`: the repr
`b'...'` is interpolated.  Base64 text contains neither quotes nor
backslashes, so the repr is exactly the text wrapped in `b'` and `'`. -/
def pyBytesRepr (s : String) : String := "b" ++ sqs ++ s ++ sqs

/-- The exact content written to the `.js` file by lines 253-257:
`"processBase64Zcode('%s');" % base64.b64encode(contents)`, where the
`%s` interpolates the REPR of the bytes object (this script runs under
Python 3: line 87 uses `open(..., encoding=...)`). -/
def jsContent (storyBytes : List Nat) : String :=
  "processBase64Zcode(" ++ sqs ++ pyBytesRepr (base64Encode storyBytes) ++ sqs ++ ");"

/-! ### Concrete fixtures used by the claim theorems -/

/-- A baseline argument dictionary: required options set, all defaults. -/
def argsA : Args :=
  { informbin := "inform", tmpdir := "/tmp", devstage := "release", dev := false,
    language := "English", librarypaths := "", unicodeFlag := false, outdirectory := "",
    storyfilePref := "", storyfilesuffix := "", nostorysuffix := false,
    storyfileversion := "5", writejs := false, force := false, verbosity := 0 }

/-- Filesystem with one well-formed input `a.inf` (empty header), an
existing compiler binary and temporary directory, and no pre-existing
output. -/
def fsA : FS :=
  { pathExists := fun p => p == "inform" || p == "/tmp" || p == "a.inf",
    isdir := fun p => p == "./",
    isfile := fun p => p == "a.inf",
    lines := fun _ => [] }

/-- Filesystem where the input file does not exist at all. -/
def fsB : FS :=
  { pathExists := fun p => p == "inform" || p == "/tmp",
    isdir := fun _ => false,
    isfile := fun _ => false,
    lines := fun _ => [] }

/-- Filesystem for the state-leak scenarios: `a.inf` carries a release
header and its story file is already built (so it is skipped), `b.inf`
has no metadata and no pre-existing output. -/
def fsC : FS :=
  { pathExists := fun p => p == "inform" || p == "/tmp" || p == "a.inf" || p == "b.inf",
    isdir := fun p => p == "./",
    isfile := fun p => p == "a.inf" || p == "b.inf" || p == "./a_9_250101.z5",
    lines := fun p => if p == "a.inf" then ["! Release: 9"] else [] }

/-- First header line of the C5 scenario. -/
def c5line1 : String := "! Release: 7"

/-- Second header line of the C5 scenario: `! Serial: "210101"`. -/
def c5line2 : String := "! Serial: " ++ dqs ++ "210101" ++ dqs

/-- Filesystem for the C5 scenario: `e.inf` with the two comment-style
headers. -/
def fsE : FS :=
  { pathExists := fun p => p == "inform" || p == "/tmp" || p == "e.inf",
    isdir := fun p => p == "./",
    isfile := fun p => p == "e.inf",
    lines := fun p => if p == "e.inf" then [c5line1, c5line2] else [] }

/-- The metadata mapping extracted from the C5 header lines. -/
def c5meta : List (String × String) :=
  match getmetadataLines [c5line1, c5line2] with
  | Except.ok mdks => mdks.1
  | Except.error _ => []

/-- A header line whose value contains a colon. -/
def c7urlLine : String := "! Url: http://example.com"

/-- Filesystem for the C7 scenario: an existing non-`.inf` file whose
header value contains a colon. -/
def fsG : FS :=
  { pathExists := fun p => p == "inform" || p == "/tmp" || p == "notes.txt",
    isdir := fun p => p == "./",
    isfile := fun p => p == "notes.txt",
    lines := fun p => if p == "notes.txt" then [c7urlLine] else [] }

/-- Arguments whose `--outdirectory` names a directory that does not
exist. -/
def argsBadOut : Args := { argsA with outdirectory := "/nodir" }

/-- Filesystem for the C8 witness: the input exists but `/nodir` is not a
directory. -/
def fsW : FS :=
  { pathExists := fun p => p == "inform" || p == "/tmp" || p == "a.inf",
    isdir := fun p => p == "./",
    isfile := fun p => p == "a.inf",
    lines := fun _ => [] }

/-- The exact `.js` content the script writes for a story file with bytes
`0x41 0x42`: the Python bytes-repr of the Base64 text, wrapped. -/
def c4actual : String :=
  "processBase64Zcode(" ++ sqs ++ "b" ++ sqs ++ "QUI=" ++ sqs ++ sqs ++ ");"

/-- The `.js` content claim C4 says is written for those bytes. -/
def c4claimed : String := "processBase64Zcode(" ++ sqs ++ "QUI=" ++ sqs ++ ");"

/-! ### Helper lemmas -/

/-- String concatenation concatenates the character lists. -/
theorem strDataAppend (a b : String) : (a ++ b).data = a.data ++ b.data := rfl

/-- `splitOnChar` never returns an empty list of pieces. -/
theorem splitOnChar_length_pos (sep : Char) :
    ∀ l : List Char, 1 ≤ (splitOnChar sep l).length := by
  intro l
  induction l with
  | nil => simp [splitOnChar]
  | cons c cs ih =>
    by_cases hc : (c == sep) = true <;> simp [splitOnChar, hc]

/-- Splitting a separator-free list yields that list as the only piece. -/
theorem splitOnChar_sep_free (sep : Char) :
    ∀ l : List Char, (∀ c ∈ l, (c == sep) = false) → splitOnChar sep l = [l] := by
  intro l
  induction l with
  | nil => intro _; rfl
  | cons c cs ih =>
    intro h
    have hc : (c == sep) = false := h c (List.mem_cons_self c cs)
    have hcs := ih (fun x hx => h x (List.mem_cons_of_mem c hx))
    simp [splitOnChar, hc, hcs]

/-- Splitting a list whose first separator sits right after a
separator-free piece peels that piece off. -/
theorem splitOnChar_append_sep (sep : Char) :
    ∀ (xs ys : List Char), (∀ c ∈ xs, (c == sep) = false) →
      splitOnChar sep (xs ++ sep :: ys) = xs :: splitOnChar sep ys := by
  intro xs
  induction xs with
  | nil => intro ys _; simp [splitOnChar]
  | cons x xs' ih =>
    intro ys h
    have hx : (x == sep) = false := h x (List.mem_cons_self x xs')
    have hxs := ih ys (fun c hc => h c (List.mem_cons_of_mem x hc))
    simp [splitOnChar, hx, hxs]

/-- A list containing the separator splits into at least two pieces. -/
theorem splitOnChar_length_ge_two (sep : Char) :
    ∀ l : List Char, sep ∈ l → 2 ≤ (splitOnChar sep l).length := by
  intro l
  induction l with
  | nil => intro h; cases h
  | cons c cs ih =>
    intro h
    by_cases hc : (c == sep) = true
    · have := splitOnChar_length_pos sep cs
      simp only [splitOnChar, hc, if_true, List.length_cons]
      omega
    · have hmem : sep ∈ cs := by
        rcases List.mem_cons.mp h with h1 | h2
        · exact absurd (by simp [h1]) hc
        · exact h2
      have h2 := ih hmem
      have h1 := splitOnChar_length_pos sep cs
      simp only [splitOnChar, hc, if_false, Bool.false_eq_true, List.length_cons,
        List.length_tail]
      omega

/-- A word character is not a colon. -/
theorem wordChar_beq_colon_false (c : Char) (h : isWordChar c = true) : (c == ':') = false := by
  rcases eq_or_ne c ':' with rfl | hne
  · exact absurd h (by decide)
  · exact beq_eq_false_iff_ne.mpr hne

/-- A word character is not a space. -/
theorem wordChar_beq_space_false (c : Char) (h : isWordChar c = true) : (c == ' ') = false := by
  rcases eq_or_ne c ' ' with rfl | hne
  · exact absurd h (by decide)
  · exact beq_eq_false_iff_ne.mpr hne

/-- The tail of the key pattern accepts a word-character run followed by a
colon. -/
theorem wordRunColonAux_append :
    ∀ (ks ys : List Char), (∀ c ∈ ks, isWordChar c = true) →
      wordRunColonAux (ks ++ ':' :: ys) = true := by
  intro ks
  induction ks with
  | nil => intro ys _; simp [wordRunColonAux]
  | cons k ks' ih =>
    intro ys h
    have hk := h k (List.mem_cons_self k ks')
    have hcolon := wordChar_beq_colon_false k hk
    simp [wordRunColonAux, hcolon, hk, ih ys (fun c hc => h c (List.mem_cons_of_mem k hc))]

/-- When the output directory the iteration resolves is not a directory,
that iteration is fatal: either `getmetadata` already crashed (missing
file or malformed header, both before the directory check) or the
`sys.exit(1)` at line 153 fires. -/
theorem processFile_fatal_of_bad_outdir (fs : FS) (today : String) (st : PState) (f : String)
    (h : fs.isdir (resolvedOutdir st f) = false) :
    outcomeFatal (processFile fs today st f).2 = true := by
  unfold processFile
  cases hex : fs.pathExists f with
  | false => simp [outcomeFatal]
  | true =>
    simp only [if_true]
    cases hmd : getmetadataLines (fs.lines f) with
    | error e => rfl
    | ok mdks => simp [processResolved, h, outcomeFatal]

/-- If some file of the batch, under the loop state reached by threading
the earlier iterations, resolves an output directory that is not a
directory, the loop returns exit status 1. -/
theorem runFiles_one_of_bad (fs : FS) (today : String) :
    ∀ (infiles : List String) (st : PState) (i : Nat) (h : i < infiles.length),
      fs.isdir (resolvedOutdir (stateAfter fs today st (infiles.take i))
        (infiles.get ⟨i, h⟩)) = false →
      runFiles fs today st infiles = 1 := by
  intro infiles
  induction infiles with
  | nil => intro st i h _; exact absurd h (Nat.not_lt_zero i)
  | cons f rest ih =>
    intro st i h hbad
    cases i with
    | zero =>
      have hfatal : outcomeFatal (processFile fs today st f).2 = true :=
        processFile_fatal_of_bad_outdir fs today st f hbad
      simp [runFiles, hfatal]
    | succ j =>
      by_cases hf : outcomeFatal (processFile fs today st f).2 = true
      · simp [runFiles, hf]
      · have hj : j < rest.length := Nat.lt_of_succ_lt_succ h
        have hrec := ih (processFile fs today st f).1 j hj hbad
        simp [runFiles, hf, hrec]

/-! ### Claim theorems -/

/-- C1: the claim says the assembled compiler command line ends with the
`--tmpdir` value, the input path and the output path.  It does not: line
223 appends the undefined name `tmpdir`, so on a well-formed input that
passes every skip check the iteration dies with `NameError` while the
command holds only the flags appended so far (here `["inform", "-~S"]`),
and the compiler is never invoked with the input and output paths. -/
theorem c1_command_tmpdir_name_error :
    (processFile fsA ("250101") (initState argsA) ("a.inf")).2 =
      StepOutcome.fatalNameError (["inform", "-~S"]) ("./a_1_250101.z5") := by decide

/-- C2: the claim says a missing input file is logged, skipped and never
fatal.  In fact `getmetadata` (line 142) opens the file before the
`os.path.isfile` check at line 183, so a missing input raises an uncaught
`FileNotFoundError` and the whole run terminates with exit status 1. -/
theorem c2_missing_infile_fatal :
    mainRun fsB ("250101") argsA (["missing.inf"]) = 1 := by decide

/-- C3: the claim says the second of two consecutive files is processed
only from the command-line flags and its own name and metadata.  It is
not: processing `b.inf` after `a.inf` (which was merely skipped) gives a
different outcome than processing `b.inf` fresh, because the suffix and
other `args` entries mutated for `a.inf` persist into `b.inf`'s
iteration. -/
theorem c3_state_leaks_between_files :
    (processFile fsC ("250101")
        (processFile fsC ("250101") (initState argsA) ("a.inf")).1 ("b.inf")).2 ≠
      (processFile fsC ("250101") (initState argsA) ("b.inf")).2 := by decide

/-- C4: the claim says the `.js` file contains exactly
`processBase64Zcode('D');` with `D` the Base64 of the story bytes.  For
story bytes `0x41 0x42` the script writes the Python bytes-repr instead:
`processBase64Zcode('b'QUI='');`, not `processBase64Zcode('QUI=');`. -/
theorem c4_writejs_bytes_repr :
    jsContent ([65, 66]) = c4actual ∧ jsContent ([65, 66]) ≠ c4claimed := by decide

/-- C5 counterexample: with headers `! Release: 7` and `! Serial: "210101"`
and no suffix options, the derived output name is NOT `./e_7_210101.z5` —
it is `./e_7_"210101".z5`, because the comment-style extractor keeps the
quotation marks around the serial value. -/
theorem c5_counterexample :
    (processFile fsE ("250101") (initState argsA) ("e.inf")).2 ≠
        StepOutcome.fatalNameError (["inform", "-~S"]) ("./e_7_210101.z5") ∧
      (processFile fsE ("250101") (initState argsA) ("e.inf")).2 =
        StepOutcome.fatalNameError (["inform", "-~S"])
          ("./e_7_" ++ dqs ++ "210101" ++ dqs ++ ".z5") := by decide

/-- C5 amended: for any stored arguments with `--storyfilesuffix` unset and
`--nostorysuffix` not given, the suffix resolved from the metadata of a
header consisting of the lines `! Release: 7` and `! Serial: "210101"` is
`_7_"210101"` (the quotes of the serial value are kept). -/
theorem c5_amended (a : Args) (today : String)
    (h1 : a.storyfilesuffix = "") (h2 : a.nostorysuffix = false) :
    finalSuffix a c5meta today = "_7_" ++ dqs ++ "210101" ++ dqs := by
  have hrel : lookupMeta c5meta ("release") = some ("7") := by decide
  have hser : lookupMeta c5meta ("serial") = some (dqs ++ "210101" ++ dqs) := by decide
  simp only [finalSuffix, h2, Bool.false_eq_true, if_false]
  rw [suffixDefault, h1, hrel, hser]
  rfl

/-- C5 witness: the amended statement at the baseline arguments. -/
theorem c5_amended_witness :
    finalSuffix argsA c5meta ("250101") = "_7_" ++ dqs ++ "210101" ++ dqs :=
  c5_amended argsA ("250101") rfl rfl

/-- C6: the claim says a file without release/serial metadata always gets
release `"1"` and the current date as serial (suffix `_1_250101` on this
run date).  It does not: after `a.inf` (release header `9`, skipped
because its output exists) the suffix stored in `args` persists, so
`b.inf` — whose metadata has neither key — derives `./b_9_250101.z5`,
inheriting `a.inf`'s release number instead of the default `"1"`. -/
theorem c6_suffix_inherited_from_earlier_file :
    (processFile fsC ("250101")
        (processFile fsC ("250101") (initState argsA) ("a.inf")).1 ("b.inf")).2 =
      StepOutcome.fatalNameError (["inform", "-~S"]) ("./b_9_250101.z5") := by decide

/-- C7: the claim says a non-`.inf` input is always skipped with a warning
and never makes the run fail.  But `getmetadata` runs (line 142) before
the extension check (line 186): an existing `notes.txt` whose header line
is `! Url: http://example.com` makes `line.split(':')` yield three pieces,
the unpacking at line 89 raises `ValueError`, and the run terminates with
exit status 1. -/
theorem c7_non_inf_file_can_abort_run :
    mainRun fsG ("250101") argsA (["notes.txt"]) = 1 := by decide

/-- C8: whenever some input file of the batch resolves (under the loop
state it is processed in) an output directory that is not a directory,
the whole run terminates with exit status 1 — either through the
`sys.exit(1)` at line 153, or through an uncaught exception that already
ended the same or an earlier iteration (Python exits with status 1 for
those as well). -/
theorem c8_bad_outdirectory_exits_one (fs : FS) (today : String) (a : Args)
    (infiles : List String) (i : Nat) (h : i < infiles.length)
    (hbad : fs.isdir (resolvedOutdir (stateAfter fs today (initState a) (infiles.take i))
      (infiles.get ⟨i, h⟩)) = false) :
    mainRun fs today a infiles = 1 := by
  unfold mainRun
  cases h1 : fs.pathExists a.informbin with
  | false => simp
  | true =>
    cases h2 : fs.pathExists a.tmpdir with
    | false => simp
    | true => simpa using runFiles_one_of_bad fs today infiles (initState a) i h hbad

/-- C8 witness: a concrete run whose `--outdirectory` is not a directory
exits with status 1. -/
theorem c8_witness : mainRun fsW ("250101") argsBadOut (["a.inf"]) = 1 :=
  c8_bad_outdirectory_exits_one fsW ("250101") argsBadOut (["a.inf"]) 0
    (by decide) (by decide)

/-- C9 counterexample: the claim says that after a zero return code the
program FIRST verifies that the output file exists and only then computes
the digest.  On a zero return code with a missing output file, the first
(and only) action is the MD5 computation — the existence check never
runs. -/
theorem c9_counterexample :
    (postprocess 0 false).1 = [PostEvent.computeMd5] ∧
      (postprocess 0 false).1.head? ≠ some PostEvent.checkExists := by decide

/-- C9 amended: after a compiler invocation returning zero, the program
computes the MD5 digest first — when the output file is missing that
computation itself aborts the run with exit status 1 (uncaught
`FileNotFoundError`) — then the size, and performs the explicit existence
check only afterwards. -/
theorem c9_md5_before_check :
    postprocess 0 true =
        ([PostEvent.computeMd5, PostEvent.computeSize, PostEvent.checkExists], 0) ∧
      postprocess 0 false = ([PostEvent.computeMd5], 1) := by decide

/-- C10: for a header line `! key: value` (key a non-empty run of word
characters), `getmetadata` raises `ValueError` when the value contains a
further colon — `line.split(':')` then has more than two pieces and the
unpacking at line 89 fails — and otherwise stores the lower-cased key
with the stripped value. -/
theorem c10_comment_value_colon (key value : String)
    (hk : key.data ≠ []) (hkw : ∀ c ∈ key.data, isWordChar c = true) :
    ((':' ∈ value.data) →
        getmetadataLines [("! " ++ key ++ ": " ++ value)] = Except.error valueErrorMsg) ∧
      ((':' ∉ value.data) →
        getmetadataLines [("! " ++ key ++ ": " ++ value)] =
          Except.ok ([(lowerStr key, trimStr value)], [lowerStr key])) := by
  have hdata : ("! " ++ key ++ ": " ++ value).data =
      '!' :: ' ' :: (key.data ++ ':' :: ' ' :: value.data) := by
    rw [strDataAppend, strDataAppend, strDataAppend]
    show ((['!', ' '] ++ key.data) ++ [':', ' ']) ++ value.data = _
    simp [List.append_assoc]
  obtain ⟨k0, kr, hkd⟩ : ∃ k0 kr, key.data = k0 :: kr := by
    cases hkdd : key.data with
    | nil => exact absurd hkdd hk
    | cons a l => exact ⟨a, l, rfl⟩
  have hmatch : matchesCommentKey ("! " ++ key ++ ": " ++ value) = true := by
    unfold matchesCommentKey
    rw [hdata, hkd]
    simp only [List.cons_append]
    show (('!' : Char) == '!' && ((' ' : Char) == ' ') && isWordChar k0 &&
        wordRunColonAux (kr ++ ':' :: ' ' :: value.data)) = true
    have hw0 : isWordChar k0 = true := hkw k0 (by rw [hkd]; exact List.mem_cons_self k0 kr)
    have haux : wordRunColonAux (kr ++ ':' :: ' ' :: value.data) = true :=
      wordRunColonAux_append kr (' ' :: value.data)
        (fun c hc => hkw c (by rw [hkd]; exact List.mem_cons_of_mem k0 hc))
    simp [hw0, haux]
  have hkeyColon : ∀ c ∈ key.data, (c == ':') = false :=
    fun c hc => wordChar_beq_colon_false c (hkw c hc)
  have hxs : ∀ c ∈ ('!' :: ' ' :: key.data), (c == ':') = false := by
    intro c hc
    rcases List.mem_cons.mp hc with rfl | hc1
    · decide
    · rcases List.mem_cons.mp hc1 with rfl | hc2
      · decide
      · exact hkeyColon c hc2
  have hsplit : splitOnChar ':' ('!' :: ' ' :: (key.data ++ ':' :: ' ' :: value.data)) =
      ('!' :: ' ' :: key.data) :: splitOnChar ':' (' ' :: value.data) := by
    have hform : '!' :: ' ' :: (key.data ++ ':' :: ' ' :: value.data) =
        ('!' :: ' ' :: key.data) ++ ':' :: ' ' :: value.data := by
      simp [List.cons_append]
    rw [hform]
    exact splitOnChar_append_sep ':' ('!' :: ' ' :: key.data) (' ' :: value.data) hxs
  constructor
  · intro hcolon
    have hlen : 2 ≤ (splitOnChar ':' (' ' :: value.data)).length :=
      splitOnChar_length_ge_two ':' (' ' :: value.data) (List.mem_cons_of_mem ' ' hcolon)
    show getmetadataGo [] [] [("! " ++ key ++ ": " ++ value)] = Except.error valueErrorMsg
    unfold getmetadataGo
    rw [hmatch]
    simp only [if_true, hdata, hsplit, List.length_cons]
    have hne : (((splitOnChar ':' (' ' :: value.data)).length + 1) == 2) = false :=
      beq_eq_false_iff_ne.mpr (by omega)
    simp [hne]
  · intro hnocolon
    have hvfree : ∀ c ∈ (' ' :: value.data), (c == ':') = false := by
      intro c hc
      rcases List.mem_cons.mp hc with rfl | hc1
      · decide
      · exact beq_eq_false_iff_ne.mpr (fun h => hnocolon (h ▸ hc1))
    have hsplitv : splitOnChar ':' (' ' :: value.data) = [' ' :: value.data] :=
      splitOnChar_sep_free ':' (' ' :: value.data) hvfree
    have hkeySpace : ∀ c ∈ key.data, (c == ' ') = false :=
      fun c hc => wordChar_beq_space_false c (hkw c hc)
    have hsplitSpace : splitOnChar ' ' ('!' :: ' ' :: key.data) =
        ['!'] :: splitOnChar ' ' key.data := by
      have hform : '!' :: ' ' :: key.data = ['!'] ++ ' ' :: key.data := by simp
      rw [hform]
      exact splitOnChar_append_sep ' ' (['!']) key.data (by intro c hc; simp at hc; simp [hc])
    have hsplitKey : splitOnChar ' ' key.data = [key.data] :=
      splitOnChar_sep_free ' ' key.data hkeySpace
    have htrim : trimStr (String.mk (' ' :: value.data)) = trimStr value := by
      simp [trimStr, trimList, List.dropWhile_cons, isWsChar]
    show getmetadataGo [] [] [("! " ++ key ++ ": " ++ value)] =
      Except.ok ([(lowerStr key, trimStr value)], [lowerStr key])
    unfold getmetadataGo
    rw [hmatch]
    simp only [if_true, hdata, hsplit, hsplitv]
    simp only [List.getD_cons_zero, List.getD_cons_succ]
    rw [hsplitSpace, hsplitKey]
    simp only [List.getD_cons_zero, List.getD_cons_succ]
    rw [htrim]
    rfl

/-- C10 witness: the header line `! Url: http://example.com` makes the
metadata extraction fail with the unpacking `ValueError`. -/
theorem c10_witness :
    getmetadataLines [("! " ++ "Url" ++ ": " ++ "http://example.com")] =
      Except.error valueErrorMsg :=
  (c10_comment_value_colon ("Url") ("http://example.com") (by decide) (by decide)).1
    (by decide)
